import Mathlib

set_option maxRecDepth 8000

/-!
Verification development for the persistence-layer code generator
(`generate_model.py` and `update_main_file.py`).

Python dicts are modelled as ordered association lists (Python dicts
iterate in insertion order, and the generator relies on that); strings are
Lean strings, sometimes handled at the `List Char` level.
-/

/-- A scalar JSON value, used for the role flags of the injected `id` spec:
`generate_model.py` line 54 stores Python booleans, line 209 stores the
strings `"true"`.  No consumer ever reads these flags. -/
inductive PyScalar where
  | pyBool (b : Bool)
  | pyStr (s : String)
deriving DecidableEq

/-- The `items` sub-spec of an array field (`specs["items"]`): an item type
plus the item-level length constraints read at `generate_model.py`
lines 129-137. -/
structure ItemSpec where
  type : String
  minLength : Option Nat := none
  maxLength : Option Nat := none
deriving DecidableEq

/-- One field spec of a schema: exactly the keys `generate_model.py` reads
(`type`, `format`, `items`, `uniqueItems`, `minLength`, `maxLength`,
`minimum`) plus the role flags stored by the injected `id` spec. -/
structure FieldSpec where
  type : String
  format : Option String := none
  items : Option ItemSpec := none
  uniqueItems : Bool := false
  minLength : Option Nat := none
  maxLength : Option Nat := none
  minimum : Option Int := none
  unique : Option PyScalar := none
  primaryKey : Option PyScalar := none
deriving DecidableEq

/-- A schema's `properties` mapping: an ordered association list of field
name to spec, mirroring a Python dict in insertion order. -/
abbrev Props := List (String × FieldSpec)

/-- Python `str.capitalize()`: first character upper-cased, the rest
lower-cased (ASCII, which is all the generator's inputs use). -/
def pyCapitalize (s : String) : String :=
  match s.data with
  | [] => ""
  | c :: cs => ⟨c.toUpper :: cs.map Char.toLower⟩

/-- Python `s.split('_')`: split at every underscore, keeping empty
segments (`"".split('_') == ['']`, `"a__b".split('_') == ['a','','b']`). -/
def pySplitUnderscore : List Char → List (List Char)
  | [] => [[]]
  | c :: cs =>
    if c = '_' then [] :: pySplitUnderscore cs
    else
      match pySplitUnderscore cs with
      | [] => [[c]]
      | x :: xs => (c :: x) :: xs

/-- `field.split('_')` on strings. -/
def pySplit (field : String) : List String :=
  (pySplitUnderscore field.data).map (fun p => ⟨p⟩)

/-- `convert_field_name` (`generate_model.py` lines 22-31): split on `_`,
capitalize each part, join; if the joined result is exactly `"Id"` return
`"ID"`. -/
def convert_field_name (field : String) : String :=
  let camel_cased := String.join ((pySplit field).map pyCapitalize)
  if camel_cased = "Id" then "ID" else camel_cased

/-- The identifier derivation as the specification words it: capitalize
each underscore-separated segment and concatenate; the sole exception is
that a whole derived name equal to `"Id"` becomes `"ID"`.  Written from the
spec, to be compared with `convert_field_name`. -/
def deriveIdentifierSpecced (rawName : String) : String :=
  let derived := String.join ((pySplit rawName).map pyCapitalize)
  if derived = "Id" then "ID" else derived

/-- The injected `created_at` spec (`generate_model.py` lines 50 and 205). -/
def createdAtSpec : FieldSpec := { type := "string", format := some "date-time" }

/-- The injected `updated_at` spec (`generate_model.py` lines 52 and 207). -/
def updatedAtSpec : FieldSpec := { type := "string", format := some "date-time" }

/-- The `id` spec injected by the Go-model generator (`generate_model.py`
line 54): `{"type": "integer", "unique": True, "primary-key": True}`. -/
def idSpecModel : FieldSpec :=
  { type := "integer", unique := some (.pyBool true), primaryKey := some (.pyBool true) }

/-- The `id` spec injected by the proto generator (`generate_model.py`
line 209): `{"type": "integer", "unique": "true", "primary-key": "true"}`. -/
def idSpecProto : FieldSpec :=
  { type := "integer", unique := some (.pyStr "true"), primaryKey := some (.pyStr "true") }

/-- Implicit-field injection of the Go-model generator (`generate_model.py`
lines 49-54): append `created_at`, `updated_at`, `id` in that order, each
only when no key of that name is present. -/
def resolveFields (ps : Props) : Props :=
  let ps1 := if "created_at" ∈ ps.map Prod.fst then ps else ps ++ [("created_at", createdAtSpec)]
  let ps2 := if "updated_at" ∈ ps1.map Prod.fst then ps1 else ps1 ++ [("updated_at", updatedAtSpec)]
  if "id" ∈ ps2.map Prod.fst then ps2 else ps2 ++ [("id", idSpecModel)]

/-- Implicit-field injection of the proto generator (`generate_model.py`
lines 204-209): same keys and conditions as `resolveFields`, but the `id`
payload stores the strings `"true"` for its role flags. -/
def resolveFieldsProto (ps : Props) : Props :=
  let ps1 := if "created_at" ∈ ps.map Prod.fst then ps else ps ++ [("created_at", createdAtSpec)]
  let ps2 := if "updated_at" ∈ ps1.map Prod.fst then ps1 else ps1 ++ [("updated_at", updatedAtSpec)]
  if "id" ∈ ps2.map Prod.fst then ps2 else ps2 ++ [("id", idSpecProto)]

/-- The type-mapping table (`generate_model.py` lines 14-20; the local copy
at lines 57-64 has the same entries): JSON schema type to Go type.
`none` models a key that is absent, so that each call site's
`.get(..., default)` keeps its own default. -/
def typeMapping (t : String) : Option String :=
  if t = "string" then some "string"
  else if t = "integer" then some "uint64"
  else if t = "boolean" then some "bool"
  else if t = "number" then some "float64"
  else if t = "date-time" then some "time.Time"
  else none

/-- Field-type resolution of the Go-model generator together with the
custom-type registration (`generate_model.py` lines 76-92).  `date-time`
formatted fields map to `time.Time`; an array of unique strings becomes a
custom container type named after the field, registered (deduplicated) in
`customs`; other arrays become `[]` plus the mapped item type with default
`string`; everything else is looked up in the table with default
`interface{}`. -/
def goTypeAndCustoms (field : String) (specs : FieldSpec) (customs : List String) :
    String × List String :=
  if specs.format = some "date-time" then ("time.Time", customs)
  else if specs.type = "array" then
    match specs.items with
    | some it =>
      if it.type = "string" ∧ specs.uniqueItems then
        let custom_type_name := convert_field_name field
        (custom_type_name,
          if custom_type_name ∈ customs then customs else customs ++ [custom_type_name])
      else ("[]" ++ (typeMapping it.type).getD "string", customs)
    | none => ((typeMapping specs.type).getD "interface\x7b\x7d", customs)
  else ((typeMapping specs.type).getD "interface\x7b\x7d", customs)

/-- The Go type the data-model artifact gives a field (the first component
of `goTypeAndCustoms`, which never depends on the registered customs). -/
def goType (field : String) (specs : FieldSpec) : String :=
  (goTypeAndCustoms field specs []).1

/-- Python `sep.join(parts)`. -/
def pyJoin (sep : String) : List String → String
  | [] => ""
  | [x] => x
  | x :: y :: xs => x ++ sep ++ pyJoin sep (y :: xs)

/-- GORM tag assembly (`generate_model.py` lines 98-111): `not null` for
required fields; `primaryKey` for `id`; automatic-timestamp tags for
`created_at`/`updated_at`; otherwise `type:json` when the resolved Go type
contains `[]` or — as literally written at line 110 — when the *raw* field
name is a key of `custom_types` (whose keys are converted names). -/
def gormTags (field : String) (field_ty : String) (customs : List String)
    (required_fields : List String) : List String :=
  let t := if field ∈ required_fields then ["not null"] else []
  if field = "id" then t ++ ["primaryKey"]
  else if field = "created_at" then t ++ ["autoCreateTime;<-:create"]
  else if field = "updated_at" then t ++ ["autoUpdateTime"]
  else if "[]".data <:+: field_ty.data ∨ field ∈ customs then t ++ ["type:json"]
  else t

/-- BSON tag (`generate_model.py` lines 99 and 104): the raw name, except
`_id` for `id`. -/
def bsonTag (field : String) : String := if field = "id" then "_id" else field

/-- Validation tag assembly (`generate_model.py` lines 118-137). -/
def validationTags (specs : FieldSpec) : List String :=
  (match specs.minLength with | some v => ["min=" ++ toString v] | none => []) ++
  (match specs.maxLength with | some v => ["max=" ++ toString v] | none => []) ++
  (match specs.minimum with | some v => ["gte=" ++ toString v] | none => []) ++
  (if specs.type = "array" then
    (if specs.uniqueItems then ["unique"] else []) ++
    (match specs.items with
     | some it =>
       if it.type = "string" then
         let iv := (match it.minLength with | some v => ["min=" ++ toString v] | none => []) ++
                   (match it.maxLength with | some v => ["max=" ++ toString v] | none => [])
         if iv ≠ [] then ["dive," ++ pyJoin "," iv] else []
       else []
     | none => [])
   else [])

/-- The ordered tag bundle of one struct field (`generate_model.py`
lines 95-140): json tag, optional gorm tag, bson tag, optional validate
tag. -/
def fieldTags (field : String) (specs : FieldSpec) (field_ty : String)
    (customs : List String) (required_fields : List String) : List String :=
  let tags := ["json:\"" ++ field ++ "\""]
  let g := gormTags field field_ty customs required_fields
  let tags := tags ++ (if g ≠ [] then ["gorm:\"" ++ pyJoin ";" g ++ "\""] else [])
  let tags := tags ++ ["bson:\"" ++ bsonTag field ++ "\""]
  let v := validationTags specs
  tags ++ (if v ≠ [] then ["validate:\"" ++ pyJoin "," v ++ "\""] else [])

/-- One emitted struct field of the data-model artifact: converted
identifier, resolved Go type, tag bundle. -/
structure GoField where
  name : String
  ty : String
  tags : List String
deriving DecidableEq

/-- The field loop of `generate_go_model` (`generate_model.py` lines
76-146), threading the `custom_types` registry through the iteration in
order (registration at lines 87-88 happens before the tag computation of
the same field). -/
def goFieldsLoop (required_fields : List String) : List String → Props → List GoField
  | _, [] => []
  | customs, (field, specs) :: rest =>
    let tc := goTypeAndCustoms field specs customs
    { name := convert_field_name field, ty := tc.1,
      tags := fieldTags field specs tc.1 tc.2 required_fields } ::
      goFieldsLoop required_fields tc.2 rest

/-- The data-model artifact content relevant to the claims: the emitted
struct fields, and the state of the schema's `properties` mapping when
`generate_go_model` returns (the function mutates the shared dict at
`generate_model.py` lines 49-54). -/
structure GoModelOut where
  fields : List GoField
  props : Props
deriving DecidableEq

/-- `generate_go_model` (`generate_model.py` lines 37-180), projected to
the struct-field list and the final state of the schema properties. -/
def generate_go_model (ps : Props) (required_fields : List String) : GoModelOut :=
  let props := resolveFields ps
  { fields := goFieldsLoop required_fields [] props, props := props }

/-- Proto field-type resolution (`generate_model.py` lines 216-229): the
scalar chain, `repeated` plus the table-mapped item type for arrays with
items, and a final `date-time` override to the wire timestamp type. -/
def protoType (specs : FieldSpec) : String :=
  let pt :=
    if specs.type = "string" then "string"
    else if specs.type = "integer" then "uint64"
    else if specs.type = "boolean" then "bool"
    else if specs.type = "number" then "double"
    else if specs.type = "array" then
      match specs.items with
      | some it => "repeated " ++ (typeMapping it.type).getD "string"
      | none => "string"
    else "string"
  if specs.format = some "date-time" then "google.protobuf.Timestamp" else pt

/-- `sorted(properties.items(), key=lambda item: item[0] not in
required_fields)` (`generate_model.py` line 211): Python's stable sort on a
boolean key is the stable partition putting required fields first. -/
def protoSorted (required_fields : List String) (props : Props) : Props :=
  props.filter (fun p => decide (p.1 ∈ required_fields)) ++
  props.filter (fun p => decide (p.1 ∉ required_fields))

/-- The proto message field lines with their monotonically increasing field
numbers (`generate_model.py` lines 214-236). -/
def protoFieldLines : Nat → Props → List String
  | _, [] => []
  | field_counter, (field, specs) :: rest =>
    ("    " ++ protoType specs ++ " " ++ convert_field_name field ++ " = " ++
      toString field_counter ++ ";\n") :: protoFieldLines (field_counter + 1) rest

/-- The CRUD request/response messages and the service block
(`generate_model.py` lines 241-256). -/
def crudLines (schema_name : String) : List String :=
  let model_name := convert_field_name schema_name
  ["message Create" ++ model_name ++ "Request \x7b\n    " ++ model_name ++ " " ++ schema_name ++ " = 1;\n\x7d\n",
   "message Create" ++ model_name ++ "Response \x7b\n    uint64 id = 1;\n    string message = 2;\n\x7d\n",
   "message Get" ++ model_name ++ "Request \x7b\n    uint64 id = 1;\n\x7d\n",
   "message Get" ++ model_name ++ "Response \x7b\n    " ++ model_name ++ " " ++ schema_name ++ " = 1;\n\x7d\n",
   "message Update" ++ model_name ++ "Request \x7b\n    " ++ model_name ++ " " ++ schema_name ++ " = 1;\n\x7d\n",
   "message Update" ++ model_name ++ "Response \x7b\n    string message = 1;\n\x7d\n",
   "message Delete" ++ model_name ++ "Request \x7b\n    uint64 id = 1;\n\x7d\n",
   "message Delete" ++ model_name ++ "Response \x7b\n    string message = 1;\n\x7d\n",
   "service " ++ model_name ++ "Service \x7b\n",
   "    rpc Create" ++ model_name ++ "(Create" ++ model_name ++ "Request) returns (Create" ++ model_name ++ "Response);\n",
   "    rpc Get" ++ model_name ++ "(Get" ++ model_name ++ "Request) returns (Get" ++ model_name ++ "Response);\n",
   "    rpc Update" ++ model_name ++ "(Update" ++ model_name ++ "Request) returns (Update" ++ model_name ++ "Response);\n",
   "    rpc Delete" ++ model_name ++ "(Delete" ++ model_name ++ "Request) returns (Delete" ++ model_name ++ "Response);\n",
   "\x7d\n"]

/-- The timestamp import line (`generate_model.py` line 199). -/
def timestampImportLine : String := "import \"google/protobuf/timestamp.proto\";\n\n"

/-- The contract artifact: its lines and the final state of the schema
properties (the function mutates the shared dict at lines 204-209). -/
structure ProtoOut where
  lines : List String
  props : Props
deriving DecidableEq

/-- `generate_proto_file` (`generate_model.py` lines 182-265).  Note the
order faithfully kept from the source: the timestamp-import decision at
lines 194-199 reads the properties *before* the implicit fields are
injected at lines 204-209. -/
def generate_proto_file (schema_name : String) (ps : Props) (required_fields : List String) :
    ProtoOut :=
  let model_name := convert_field_name schema_name
  let pre := ["syntax = \"proto3\";\n\n", "package proto;\n", "option go_package = \"./proto\";\n\n"]
  let needs_timestamp_import := ps.any (fun p => decide (p.2.format = some "date-time"))
  let pre := pre ++ (if needs_timestamp_import then [timestampImportLine] else [])
  let pre := pre ++ ["message " ++ model_name ++ " \x7b\n"]
  let props := resolveFieldsProto ps
  let sorted_fields := protoSorted required_fields props
  { lines := pre ++ protoFieldLines 1 sorted_fields ++ ["\x7d\n\n"] ++ crudLines schema_name,
    props := props }

/-- The Get-operation cache-key line emitted by `generate_service_impl`
(`generate_model.py` line 326). -/
def getCacheKeyLine (schema_name : String) : String :=
  "    cacheKey := fmt.Sprintf(\"" ++ schema_name ++ ":%d\", uint(req.Id))\n"

/-- The Update-operation cache-key line (`generate_model.py` line 379). -/
def updateCacheKeyLine (schema_name : String) : String :=
  "    cacheKey := fmt.Sprintf(\"" ++ schema_name ++ ":%d\", uint(req." ++
    convert_field_name schema_name ++ ".ID))\n"

/-- The Delete-operation cache-key line (`generate_model.py` line 395),
with its literal `product` prefix. -/
def deleteCacheKeyLine : String :=
  "    cacheKey := fmt.Sprintf(\"product:%d\", uint(req.Id))\n"

/-- The Sprintf format string of the Get and Update cache keys
(`generate_model.py` lines 326 and 379): `<schemaName>:%d`. -/
def getCacheKeyFormat (schema_name : String) : String := schema_name ++ ":%d"

/-- The Sprintf format string of the Delete cache key (`generate_model.py`
line 395): the schema-independent literal `product:%d`. -/
def deleteCacheKeyFormat : String := "product:%d"

/-- Go `fmt.Sprintf` restricted to the single `%d` verb the generated
cache-key lines use: the first `%d` is replaced by the decimal of `n`. -/
def sprintfDAux (n : Nat) : List Char → List Char
  | [] => []
  | [c] => [c]
  | c :: d :: rest =>
    if c = '%' ∧ d = 'd' then (toString n).data ++ rest
    else c :: sprintfDAux n (d :: rest)

/-- `fmt.Sprintf` with one numeric argument, on strings. -/
def sprintf1d (f : String) (n : Nat) : String := ⟨sprintfDAux n f.data⟩

/-- Start of the auto-migration regex (`update_main_file.py` line 67): the
literal comment anchor. -/
def migHead : List Char := "// Run GORM auto-migration for your models here".data

/-- The end anchor of the auto-migration regex as a literal (`log.Println`
with its one wildcard position instantiated by `.`). -/
def end1Mark : List Char := "log.Println(\"Auto migration completed successfully.\")".data

/-- The literal tail of the auto-migration end anchor, after `log`, the
wildcard character, and `Println`. -/
def end1Tail : List Char := "Println(\"Auto migration completed successfully.\")".data

/-- Start literal of the GetAllServices regex (`update_main_file.py`
line 89): `func GetAllServices\(`. -/
def svcHead : List Char := "func GetAllServices(".data

/-- The literal after the lazily matched parameter characters in the
GetAllServices regex: `\) \[\]RegisterableService \{`. -/
def svcTail : List Char := ") []RegisterableService \x7b".data

/-- Does the auto-migration end anchor `log.Println\("Auto migration
completed successfully\."\)` match at the head of `l`?  The unescaped dot
after `log` matches any character except newline.  Returns the suffix
after the match. -/
def isEnd1At : List Char → Option (List Char)
  | 'l' :: 'o' :: 'g' :: c :: rest =>
    if c = '\n' then none
    else if end1Tail.isPrefixOf rest then some (rest.drop end1Tail.length) else none
  | _ => none

/-- Lazy completion of the auto-migration pattern: `(.|\s)*?` extends to
the first position where the end anchor matches; returns the suffix after
the whole match. -/
def findE1 : List Char → Option (List Char)
  | [] => none
  | c :: cs =>
    match isEnd1At (c :: cs) with
    | some r => some r
    | none => findE1 cs

/-- Lazy completion of `\(.+?\) \[\]RegisterableService \{`: consume at
least one non-newline character, extending until `svcTail` matches; fails
on a newline (`.` does not match newline). -/
def scanParen : List Char → Option (List Char)
  | [] => none
  | c :: cs =>
    if c = '\n' then none
    else if svcTail.isPrefixOf cs then some (cs.drop svcTail.length)
    else scanParen cs

/-- Lazy completion of `(.|\s)*?\}`: everything up to and including the
first closing brace. -/
def findBrace : List Char → Option (List Char)
  | [] => none
  | c :: cs => if c = '\x7d' then some cs else findBrace cs

/-- Completion of the GetAllServices pattern after its start literal. -/
def complete2 (l : List Char) : Option (List Char) := (scanParen l).bind findBrace

/-- `re.sub` for a pattern `head · lazy-middle · tail`: scan left to right;
at the first position where `head` matches and the lazy completion
succeeds, replace the match by `repl` and continue after it (replacements
are not rescanned); when the completion fails, advance one character, as
the regex engine moves its start position.  `fuel` bounds the recursion;
each step consumes at least one character, so the input length suffices. -/
def reSubGo (head : List Char) (complete : List Char → Option (List Char))
    (repl : List Char) : Nat → List Char → List Char
  | 0, s => s
  | _ + 1, [] => []
  | fuel + 1, c :: cs =>
    if head.isPrefixOf (c :: cs) then
      match complete ((c :: cs).drop head.length) with
      | some rest => repl ++ reSubGo head complete repl fuel rest
      | none => c :: reSubGo head complete repl fuel cs
    else c :: reSubGo head complete repl fuel cs

/-- `"\n        ".join("&models." + model + "{}," for model in models)`
(`update_main_file.py` lines 47-50). -/
def newModelsContent (models : List String) : String :=
  pyJoin "\n        " (models.map (fun model => "&models." ++ model ++ "\x7b\x7d,"))

/-- The replacement block for the auto-migration region
(`update_main_file.py` lines 53-63), verbatim. -/
def newAutoMigrateContent (models : List String) : String :=
  "    // Run GORM auto-migration for your models here\n" ++
  "    db := sqlAdapter.GetDB()\n" ++
  "    err = db.AutoMigrate(\n" ++
  "        " ++ newModelsContent models ++ "\n" ++
  "    )\n" ++
  "    if err != nil \x7b\n" ++
  "        log.Fatalf(\"Failed to auto migrate models: %v\", err)\n" ++
  "    \x7d\n" ++
  "    log.Println(\"Auto migration completed successfully.\")"

/-- `"\n        ".join("services.New" + service + "(ormLayer)," ...)`
(`update_main_file.py` lines 74-77). -/
def newServicesContent (services : List String) : String :=
  pyJoin "\n        " (services.map (fun service => "services.New" ++ service ++ "(ormLayer),"))

/-- The replacement block for the GetAllServices region
(`update_main_file.py` lines 80-85), verbatim. -/
def newFunctionContent (services : List String) : String :=
  "func GetAllServices(ormLayer *orm.ORM) []RegisterableService \x7b\n" ++
  "    return []RegisterableService\x7b\n" ++
  "        " ++ newServicesContent services ++ "\n" ++
  "    \x7d"

/-- The first `re.sub` of `update_main_go_file` (`update_main_file.py`
lines 66-71). -/
def subAutoMigrate (models : List String) (s : List Char) : List Char :=
  reSubGo migHead findE1 (newAutoMigrateContent models).data s.length s

/-- The second `re.sub` of `update_main_go_file` (`update_main_file.py`
lines 88-93). -/
def subGetAllServices (services : List String) (s : List Char) : List Char :=
  reSubGo svcHead complete2 (newFunctionContent services).data s.length s

/-- `update_main_go_file` (`update_main_file.py` lines 41-97) as a pure
text transformation: read content, substitute the auto-migration region,
substitute the GetAllServices region, write the result back. -/
def update_main_go_file (models services : List String) (content : String) : String :=
  ⟨subGetAllServices services (subAutoMigrate models content.data)⟩

/-- The migration replacement block between its own anchor occurrences: the
characters of `newAutoMigrateContent` strictly between the leading four
spaces plus `migHead` and the final `end1Mark`. -/
def migBodyData (models : List String) : List Char :=
  ("\n    db := sqlAdapter.GetDB()\n    err = db.AutoMigrate(\n        " ++
    newModelsContent models ++
    "\n    )\n    if err != nil \x7b\n        log.Fatalf(\"Failed to auto migrate models: %v\", err)\n    \x7d\n    ").data

/-- The parameter characters of the emitted `GetAllServices` signature. -/
def svcParams : List Char := "ormLayer *orm.ORM".data

/-- The service replacement block between its own anchor occurrences: the
characters of `newFunctionContent` strictly between
`svcHead ++ svcParams ++ svcTail` and the final closing brace. -/
def svcBodyData (services : List String) : List Char :=
  ("\n    return []RegisterableService\x7b\n        " ++ newServicesContent services ++
    "\n    ").data

/-- The spec of the end-to-end example field `tags`: an array of strings
with `uniqueItems`, the shape that triggers the custom-container path. -/
def tagsSpec : FieldSpec :=
  { type := "array", items := some { type := "string" }, uniqueItems := true }

/-! ### Helper lemmas -/

theorem isPrefixOf_self_append (l t : List Char) : l.isPrefixOf (l ++ t) = true := by
  induction l with
  | nil => simp [List.isPrefixOf]
  | cons c cs ih => simp [List.isPrefixOf, ih]

theorem reSubGo_skip (head : List Char) (complete : List Char → Option (List Char))
    (repl : List Char) (l rest : List Char) :
    ∀ fuel, l.length + rest.length ≤ fuel →
      (∀ i, i < l.length → head.isPrefixOf ((l ++ rest).drop i) = false) →
      reSubGo head complete repl fuel (l ++ rest)
        = l ++ reSubGo head complete repl (fuel - l.length) rest := by
  induction l with
  | nil => intro fuel _ _; simp
  | cons c cs ih =>
    intro fuel hfuel hno
    cases fuel with
    | zero => simp only [List.length_cons] at hfuel; omega
    | succ f =>
      have h0 : head.isPrefixOf (c :: (cs ++ rest)) = false := by
        have := hno 0 (by simp)
        simpa using this
      have hfuel' : cs.length + rest.length ≤ f := by
        simp only [List.length_cons] at hfuel; omega
      have hno' : ∀ i, i < cs.length → head.isPrefixOf ((cs ++ rest).drop i) = false := by
        intro i hi
        have := hno (i + 1) (by simp only [List.length_cons]; omega)
        simpa using this
      have harith : f + 1 - (c :: cs).length = f - cs.length := by
        simp only [List.length_cons]; omega
      calc reSubGo head complete repl (f + 1) ((c :: cs) ++ rest)
          = reSubGo head complete repl (f + 1) (c :: (cs ++ rest)) := by
            rw [List.cons_append]
        _ = c :: reSubGo head complete repl f (cs ++ rest) := by
            rw [reSubGo, if_neg (by simp [h0])]
        _ = c :: (cs ++ reSubGo head complete repl (f - cs.length) rest) := by
            rw [ih f hfuel' hno']
        _ = (c :: cs) ++ reSubGo head complete repl (f + 1 - (c :: cs).length) rest := by
            rw [harith, List.cons_append]

theorem reSubGo_match (head : List Char) (complete : List Char → Option (List Char))
    (repl : List Char) (rest0 rest' : List Char) (fuel : Nat)
    (hhead : head ≠ []) (hfuel : 1 ≤ fuel) (hc : complete rest0 = some rest') :
    reSubGo head complete repl fuel (head ++ rest0)
      = repl ++ reSubGo head complete repl (fuel - 1) rest' := by
  cases fuel with
  | zero => omega
  | succ f =>
    cases head with
    | nil => exact absurd rfl hhead
    | cons h hs =>
      have hpre : (h :: hs).isPrefixOf ((h :: hs) ++ rest0) = true :=
        isPrefixOf_self_append _ _
      have hdrop : (((h :: hs) ++ rest0).drop (h :: hs).length) = rest0 := List.drop_left _ _
      simp only [List.cons_append] at hpre hdrop ⊢
      rw [reSubGo, if_pos hpre, hdrop, hc]
      simp

theorem reSubGo_id (head : List Char) (complete : List Char → Option (List Char))
    (repl : List Char) (l : List Char) :
    ∀ fuel, (∀ i, i < l.length → head.isPrefixOf (l.drop i) = false) →
      reSubGo head complete repl fuel l = l := by
  induction l with
  | nil => intro fuel _; cases fuel <;> rfl
  | cons c cs ih =>
    intro fuel hno
    cases fuel with
    | zero => rfl
    | succ f =>
      have h0 := hno 0 (by simp)
      simp only [List.drop_zero] at h0
      rw [reSubGo, if_neg (by simp [h0])]
      exact congrArg (c :: ·)
        (ih f (fun i hi => by
          have := hno (i + 1) (by simp only [List.length_cons]; omega)
          simpa using this))

theorem end1Mark_eq : end1Mark = 'l' :: 'o' :: 'g' :: '.' :: end1Tail := by decide

theorem isEnd1At_marker (rest : List Char) : isEnd1At (end1Mark ++ rest) = some rest := by
  rw [end1Mark_eq]
  simp only [List.cons_append]
  rw [isEnd1At]
  rw [if_neg (by decide), if_pos (isPrefixOf_self_append _ _), List.drop_left]

theorem findE1_eq (M rest r : List Char)
    (hM : ∀ i, i < M.length → isEnd1At ((M ++ rest).drop i) = none)
    (hr : isEnd1At rest = some r) :
    findE1 (M ++ rest) = some r := by
  induction M with
  | nil =>
    cases rest with
    | nil => simp [isEnd1At] at hr
    | cons c cs => simp only [List.nil_append]; rw [findE1, hr]
  | cons c cs ih =>
    have h0 : isEnd1At (c :: (cs ++ rest)) = none := by
      have := hM 0 (by simp)
      simpa using this
    simp only [List.cons_append]
    rw [findE1, h0]
    exact ih (fun i hi => by
      have := hM (i + 1) (by simp only [List.length_cons]; omega)
      simpa using this)

theorem scanParen_eq (params X : List Char) (h1 : params ≠ []) (h2 : '\n' ∉ params)
    (h3 : ∀ i, i + 1 < params.length →
      svcTail.isPrefixOf ((params ++ (svcTail ++ X)).drop (i + 1)) = false) :
    scanParen (params ++ (svcTail ++ X)) = some X := by
  induction params with
  | nil => exact absurd rfl h1
  | cons c cs ih =>
    have hc : c ≠ '\n' := fun h => h2 (h ▸ List.mem_cons_self c cs)
    simp only [List.cons_append]
    rw [scanParen, if_neg hc]
    cases cs with
    | nil =>
      simp only [List.nil_append]
      rw [if_pos (isPrefixOf_self_append _ _), List.drop_left]
    | cons d ds =>
      have h0 : svcTail.isPrefixOf ((d :: ds) ++ (svcTail ++ X)) = false := by
        have := h3 0 (by simp only [List.length_cons]; omega)
        simpa using this
      rw [if_neg (by simp only [h0]; exact Bool.false_ne_true)]
      exact ih (by simp) (fun h => h2 (List.mem_cons_of_mem c h))
        (fun i hi => by
          have := h3 (i + 1) (by simp only [List.length_cons] at hi ⊢; omega)
          simpa using this)

theorem findBrace_eq (M S : List Char) (h : '\x7d' ∉ M) :
    findBrace (M ++ '\x7d' :: S) = some S := by
  induction M with
  | nil => simp only [List.nil_append]; rw [findBrace, if_pos rfl]
  | cons c cs ih =>
    have hc : c ≠ '\x7d' := fun hh => h (hh ▸ List.mem_cons_self c cs)
    simp only [List.cons_append]
    rw [findBrace, if_neg hc]
    exact ih (fun hh => h (List.mem_cons_of_mem c hh))

theorem complete2_eq (params M2 S : List Char) (h1 : params ≠ []) (h2 : '\n' ∉ params)
    (h3 : ∀ i, i + 1 < params.length →
      svcTail.isPrefixOf ((params ++ (svcTail ++ (M2 ++ '\x7d' :: S))).drop (i + 1)) = false)
    (h4 : '\x7d' ∉ M2) :
    complete2 (params ++ (svcTail ++ (M2 ++ '\x7d' :: S))) = some S := by
  rw [complete2, scanParen_eq params (M2 ++ '\x7d' :: S) h1 h2 h3]
  simp only [Option.some_bind]
  exact findBrace_eq M2 S h4

theorem autoMigrate_decomp (models : List String) :
    (newAutoMigrateContent models).data
      = "    ".data ++ (migHead ++ (migBodyData models ++ end1Mark)) := by
  simp only [newAutoMigrateContent, migBodyData, migHead, end1Mark, String.data_append,
    List.append_assoc, List.cons_append, List.nil_append]

theorem functionContent_decomp (services : List String) :
    (newFunctionContent services).data
      = svcHead ++ (svcParams ++ (svcTail ++ (svcBodyData services ++ ['\x7d']))) := by
  simp only [newFunctionContent, svcBodyData, svcHead, svcParams, svcTail, String.data_append,
    List.append_assoc, List.cons_append, List.nil_append]

theorem reSub_one (head : List Char) (complete : List Char → Option (List Char))
    (repl : List Char) (P rest0 rest1 : List Char)
    (hhead : head ≠ [])
    (hP : ∀ i, i < P.length → head.isPrefixOf ((P ++ (head ++ rest0)).drop i) = false)
    (hcomp : complete rest0 = some rest1)
    (hrest1 : ∀ i, i < rest1.length → head.isPrefixOf (rest1.drop i) = false)
    (fuel : Nat) (hfuel : (P ++ (head ++ rest0)).length ≤ fuel) :
    reSubGo head complete repl fuel (P ++ (head ++ rest0)) = P ++ (repl ++ rest1) := by
  have hlen : 0 < head.length := List.length_pos.mpr hhead
  simp only [List.length_append] at hfuel
  rw [reSubGo_skip head complete repl P (head ++ rest0) fuel
    (by simp only [List.length_append]; omega) hP]
  rw [reSubGo_match head complete repl rest0 rest1 (fuel - P.length) hhead (by omega) hcomp]
  rw [reSubGo_id head complete repl rest1 _ hrest1]

theorem reconcile_eq (models services : List String) (P M1 Q params M2 S : List Char)
    (hparams1 : params ≠ []) (hparams2 : '\n' ∉ params)
    (hP : ∀ i, i < P.length →
      migHead.isPrefixOf ((P ++ (migHead ++ (M1 ++ (end1Mark ++ (Q ++ (svcHead ++ (params ++ (svcTail ++ (M2 ++ '\x7d' :: S))))))))).drop i) = false)
    (hM1 : ∀ i, i < M1.length →
      isEnd1At ((M1 ++ (end1Mark ++ (Q ++ (svcHead ++ (params ++ (svcTail ++ (M2 ++ '\x7d' :: S))))))).drop i) = none)
    (hrest : ∀ i, i < (Q ++ (svcHead ++ (params ++ (svcTail ++ (M2 ++ '\x7d' :: S))))).length →
      migHead.isPrefixOf ((Q ++ (svcHead ++ (params ++ (svcTail ++ (M2 ++ '\x7d' :: S))))).drop i) = false)
    (hpre2 : ∀ i, i < (P ++ ((newAutoMigrateContent models).data ++ Q)).length →
      svcHead.isPrefixOf (((P ++ ((newAutoMigrateContent models).data ++ Q)) ++ (svcHead ++ (params ++ (svcTail ++ (M2 ++ '\x7d' :: S))))).drop i) = false)
    (h3 : ∀ i, i + 1 < params.length →
      svcTail.isPrefixOf ((params ++ (svcTail ++ (M2 ++ '\x7d' :: S))).drop (i + 1)) = false)
    (hM2 : '\x7d' ∉ M2)
    (hS : ∀ i, i < S.length → svcHead.isPrefixOf (S.drop i) = false) :
    update_main_go_file models services
        ⟨P ++ (migHead ++ (M1 ++ (end1Mark ++ (Q ++ (svcHead ++ (params ++ (svcTail ++ (M2 ++ '\x7d' :: S))))))))⟩
      = ⟨P ++ ((newAutoMigrateContent models).data ++ (Q ++ ((newFunctionContent services).data ++ S)))⟩ := by
  refine congrArg String.mk ?_
  have s1eq : subAutoMigrate models
      (P ++ (migHead ++ (M1 ++ (end1Mark ++ (Q ++ (svcHead ++ (params ++ (svcTail ++ (M2 ++ '\x7d' :: S)))))))))
      = P ++ ((newAutoMigrateContent models).data ++ (Q ++ (svcHead ++ (params ++ (svcTail ++ (M2 ++ '\x7d' :: S)))))) := by
    unfold subAutoMigrate
    exact reSub_one migHead findE1 (newAutoMigrateContent models).data P
      (M1 ++ (end1Mark ++ (Q ++ (svcHead ++ (params ++ (svcTail ++ (M2 ++ '\x7d' :: S)))))))
      (Q ++ (svcHead ++ (params ++ (svcTail ++ (M2 ++ '\x7d' :: S)))))
      (by decide) hP
      (findE1_eq M1 (end1Mark ++ (Q ++ (svcHead ++ (params ++ (svcTail ++ (M2 ++ '\x7d' :: S))))))
        (Q ++ (svcHead ++ (params ++ (svcTail ++ (M2 ++ '\x7d' :: S))))) hM1
        (isEnd1At_marker (Q ++ (svcHead ++ (params ++ (svcTail ++ (M2 ++ '\x7d' :: S)))))))
      hrest _ (le_refl _)
  show subGetAllServices services (subAutoMigrate models _) = _
  rw [s1eq]
  rw [show P ++ ((newAutoMigrateContent models).data ++ (Q ++ (svcHead ++ (params ++ (svcTail ++ (M2 ++ '\x7d' :: S))))))
      = (P ++ ((newAutoMigrateContent models).data ++ Q)) ++ (svcHead ++ (params ++ (svcTail ++ (M2 ++ '\x7d' :: S))))
    from by simp [List.append_assoc]]
  have s2eq : subGetAllServices services
      ((P ++ ((newAutoMigrateContent models).data ++ Q)) ++ (svcHead ++ (params ++ (svcTail ++ (M2 ++ '\x7d' :: S)))))
      = (P ++ ((newAutoMigrateContent models).data ++ Q)) ++ ((newFunctionContent services).data ++ S) := by
    unfold subGetAllServices
    exact reSub_one svcHead complete2 (newFunctionContent services).data
      (P ++ ((newAutoMigrateContent models).data ++ Q))
      (params ++ (svcTail ++ (M2 ++ '\x7d' :: S))) S
      (by decide) hpre2
      (complete2_eq params M2 S hparams1 hparams2 h3 hM2)
      hS _ (le_refl _)
  rw [s2eq]
  simp [List.append_assoc]

theorem subAutoMigrate_noop (models : List String) (t : List Char)
    (h : ∀ i, i < t.length → migHead.isPrefixOf (t.drop i) = false) :
    subAutoMigrate models t = t :=
  reSubGo_id migHead findE1 (newAutoMigrateContent models).data t t.length h

theorem subGetAllServices_noop (services : List String) (t : List Char)
    (h : ∀ i, i < t.length → svcHead.isPrefixOf (t.drop i) = false) :
    subGetAllServices services t = t :=
  reSubGo_id svcHead complete2 (newFunctionContent services).data t t.length h

theorem svcParams_no_early_tail (Z : List Char) :
    ∀ i, i + 1 < svcParams.length →
      svcTail.isPrefixOf ((svcParams ++ (svcTail ++ Z)).drop (i + 1)) = false := by
  intro i hi
  have hlen : svcParams.length = 17 := by decide
  have hi' : i < 16 := by omega
  have e1 : svcParams = ['o', 'r', 'm', 'L', 'a', 'y', 'e', 'r', ' ', '*', 'o', 'r', 'm', '.', 'O', 'R', 'M'] := by decide
  have e2 : svcTail = ')' :: " []RegisterableService \x7b".data := by decide
  rw [e1, e2]
  interval_cases i <;> simp [List.isPrefixOf]

theorem count_pyJoin (c : Char) (sep : String) (lines : List String)
    (hsep : sep.data.count c = 0) (hline : ∀ l ∈ lines, l.data.count c = 1) :
    (pyJoin sep lines).data.count c = lines.length := by
  induction lines with
  | nil => simp [pyJoin]
  | cons x xs ih =>
    cases xs with
    | nil => simpa [pyJoin] using hline x (by simp)
    | cons y ys =>
      simp only [pyJoin, String.data_append, List.count_append]
      rw [hline x (by simp), hsep,
        show (pyJoin sep (y :: ys)).data.count c = (y :: ys).length from
          ih (fun l hl => hline l (List.mem_cons_of_mem x hl))]
      simp only [List.length_cons]
      omega

theorem count_amp_autoMigrate (models : List String) (h : ∀ m ∈ models, '&' ∉ m.data) :
    (newAutoMigrateContent models).data.count '&' = models.length := by
  have hjoin : (newModelsContent models).data.count '&' = models.length := by
    rw [newModelsContent]
    rw [count_pyJoin '&' "\n        " (models.map (fun model => "&models." ++ model ++ "\x7b\x7d,"))
      (by decide)
      (fun l hl => by
        obtain ⟨m, hm, rfl⟩ := List.mem_map.mp hl
        simp only [String.data_append, List.count_append]
        rw [List.count_eq_zero.mpr (h m hm)]
        decide)]
    simp
  unfold newAutoMigrateContent
  repeat rw [String.data_append]
  repeat rw [List.count_append]
  rw [hjoin]
  have c1 : "    // Run GORM auto-migration for your models here\n".data.count '&' = 0 := by decide
  have c2 : "    db := sqlAdapter.GetDB()\n".data.count '&' = 0 := by decide
  have c3 : "    err = db.AutoMigrate(\n".data.count '&' = 0 := by decide
  have c4 : "        ".data.count '&' = 0 := by decide
  have c5 : "\n".data.count '&' = 0 := by decide
  have c6 : "    )\n".data.count '&' = 0 := by decide
  have c7 : "    if err != nil \x7b\n".data.count '&' = 0 := by decide
  have c8 : "        log.Fatalf(\"Failed to auto migrate models: %v\", err)\n".data.count '&' = 0 := by decide
  have c9 : "    \x7d\n".data.count '&' = 0 := by decide
  have c10 : "    log.Println(\"Auto migration completed successfully.\")".data.count '&' = 0 := by decide
  rw [c1, c2, c3, c4, c5, c6, c7, c8, c9, c10]
  omega

theorem count_comma_functionContent (services : List String)
    (h : ∀ s ∈ services, ',' ∉ s.data) :
    (newFunctionContent services).data.count ',' = services.length := by
  have hjoin : (newServicesContent services).data.count ',' = services.length := by
    rw [newServicesContent]
    rw [count_pyJoin ',' "\n        "
      (services.map (fun service => "services.New" ++ service ++ "(ormLayer),"))
      (by decide)
      (fun l hl => by
        obtain ⟨s, hs, rfl⟩ := List.mem_map.mp hl
        simp only [String.data_append, List.count_append]
        rw [List.count_eq_zero.mpr (h s hs)]
        decide)]
    simp
  unfold newFunctionContent
  repeat rw [String.data_append]
  repeat rw [List.count_append]
  rw [hjoin]
  have c1 : "func GetAllServices(ormLayer *orm.ORM) []RegisterableService \x7b\n".data.count ',' = 0 := by decide
  have c2 : "    return []RegisterableService\x7b\n".data.count ',' = 0 := by decide
  have c3 : "        ".data.count ',' = 0 := by decide
  have c4 : "\n".data.count ',' = 0 := by decide
  have c5 : "    \x7d".data.count ',' = 0 := by decide
  rw [c1, c2, c3, c4, c5]
  omega

/-- C3: for every registry text decomposed around the two anchor patterns
(with the side conditions making those the patterns' leftmost matches),
reconciliation keeps everything outside the two matched regions (`P`, `Q`,
`S`) byte-for-byte, replaces each region wholesale with its generated
block, the migration block holds exactly one reference-construction line
(counted by its `&models.` ampersand) per discovered model and the service
block exactly one constructor-call line (counted by its trailing comma)
per discovered service; and when a start anchor occurs nowhere in the
text, the corresponding substitution is a silent no-op. -/
theorem registry_reconcile_C3 (models services : List String)
    (P M1 Q params M2 S : List Char)
    (hmod : ∀ m ∈ models, '&' ∉ m.data) (hsvc : ∀ s ∈ services, ',' ∉ s.data)
    (hparams1 : params ≠ []) (hparams2 : '\n' ∉ params)
    (hP : ∀ i, i < P.length →
      migHead.isPrefixOf ((P ++ (migHead ++ (M1 ++ (end1Mark ++ (Q ++ (svcHead ++ (params ++ (svcTail ++ (M2 ++ '\x7d' :: S))))))))).drop i) = false)
    (hM1 : ∀ i, i < M1.length →
      isEnd1At ((M1 ++ (end1Mark ++ (Q ++ (svcHead ++ (params ++ (svcTail ++ (M2 ++ '\x7d' :: S))))))).drop i) = none)
    (hrest : ∀ i, i < (Q ++ (svcHead ++ (params ++ (svcTail ++ (M2 ++ '\x7d' :: S))))).length →
      migHead.isPrefixOf ((Q ++ (svcHead ++ (params ++ (svcTail ++ (M2 ++ '\x7d' :: S))))).drop i) = false)
    (hpre2 : ∀ i, i < (P ++ ((newAutoMigrateContent models).data ++ Q)).length →
      svcHead.isPrefixOf (((P ++ ((newAutoMigrateContent models).data ++ Q)) ++ (svcHead ++ (params ++ (svcTail ++ (M2 ++ '\x7d' :: S))))).drop i) = false)
    (h3 : ∀ i, i + 1 < params.length →
      svcTail.isPrefixOf ((params ++ (svcTail ++ (M2 ++ '\x7d' :: S))).drop (i + 1)) = false)
    (hM2 : '\x7d' ∉ M2)
    (hS : ∀ i, i < S.length → svcHead.isPrefixOf (S.drop i) = false) :
    update_main_go_file models services
        ⟨P ++ (migHead ++ (M1 ++ (end1Mark ++ (Q ++ (svcHead ++ (params ++ (svcTail ++ (M2 ++ '\x7d' :: S))))))))⟩
      = ⟨P ++ ((newAutoMigrateContent models).data ++ (Q ++ ((newFunctionContent services).data ++ S)))⟩
    ∧ (newAutoMigrateContent models).data.count '&' = models.length
    ∧ (newFunctionContent services).data.count ',' = services.length
    ∧ (∀ t : List Char, (∀ i, i < t.length → migHead.isPrefixOf (t.drop i) = false) →
        subAutoMigrate models t = t)
    ∧ (∀ t : List Char, (∀ i, i < t.length → svcHead.isPrefixOf (t.drop i) = false) →
        subGetAllServices services t = t) :=
  ⟨reconcile_eq models services P M1 Q params M2 S hparams1 hparams2 hP hM1 hrest hpre2 h3 hM2 hS,
   count_amp_autoMigrate models hmod,
   count_comma_functionContent services hsvc,
   fun t ht => subAutoMigrate_noop models t ht,
   fun t ht => subGetAllServices_noop services t ht⟩

set_option maxHeartbeats 4000000 in
/-- Witness for C3 at a concrete registry with one model and one service. -/
theorem registry_reconcile_C3_witness :
    update_main_go_file ["Article"] ["ArticleServiceServerImpl"]
        ⟨"package main\n\nfunc main() \x7b\n    ".data ++ (migHead ++ (" legacy ".data ++ (end1Mark ++ ("\n\x7d\n".data ++ (svcHead ++ (svcParams ++ (svcTail ++ ("\n    old\n".data ++ '\x7d' :: "\n".data))))))))⟩
      = ⟨"package main\n\nfunc main() \x7b\n    ".data ++ ((newAutoMigrateContent ["Article"]).data ++ ("\n\x7d\n".data ++ ((newFunctionContent ["ArticleServiceServerImpl"]).data ++ "\n".data)))⟩
    ∧ (newAutoMigrateContent ["Article"]).data.count '&' = 1
    ∧ (newFunctionContent ["ArticleServiceServerImpl"]).data.count ',' = 1 := by
  have h := registry_reconcile_C3 ["Article"] ["ArticleServiceServerImpl"]
    "package main\n\nfunc main() \x7b\n    ".data " legacy ".data "\n\x7d\n".data
    svcParams "\n    old\n".data "\n".data
    (by decide) (by decide) (by decide) (by decide) (by decide) (by decide) (by decide)
    (by decide) (svcParams_no_early_tail ("\n    old\n".data ++ '\x7d' :: "\n".data))
    (by decide) (by decide)
  exact ⟨h.1, h.2.1, h.2.2.1⟩

set_option maxHeartbeats 4000000 in
/-- C4 counterexample: on a registry holding both anchors, applying the
reconciliation twice with the same discovered sets is not byte-identical
to applying it once — the second pass leaves the four-space indentation
emitted by the first pass in place and prepends another four spaces before
the migration anchor. -/
theorem registry_reconcile_C4_counterexample :
    update_main_go_file ["Article"] ["ArticleServiceServerImpl"]
        (update_main_go_file ["Article"] ["ArticleServiceServerImpl"]
          "A\n    // Run GORM auto-migration for your models here x log.Println(\"Auto migration completed successfully.\")\nB\nfunc GetAllServices(o *orm.ORM) []RegisterableService \x7bx\x7d\nC")
      ≠ update_main_go_file ["Article"] ["ArticleServiceServerImpl"]
          "A\n    // Run GORM auto-migration for your models here x log.Println(\"Auto migration completed successfully.\")\nB\nfunc GetAllServices(o *orm.ORM) []RegisterableService \x7bx\x7d\nC" := by
  decide

/-- C4 (amended): reconciliation is not byte-idempotent.  Under the same
decomposition as C3 plus the side conditions for rescanning its own
output, a second run reproduces the first run's output except that four
spaces are inserted immediately before the migration anchor (the
replacement block's own indentation lies outside the matched span); the
service region is reproduced identically.  Hence the second output always
differs from the first. -/
theorem registry_reconcile_C4 (models services : List String)
    (P M1 Q params M2 S : List Char)
    (hparams1 : params ≠ []) (hparams2 : '\n' ∉ params)
    (hP : ∀ i, i < P.length →
      migHead.isPrefixOf ((P ++ (migHead ++ (M1 ++ (end1Mark ++ (Q ++ (svcHead ++ (params ++ (svcTail ++ (M2 ++ '\x7d' :: S))))))))).drop i) = false)
    (hM1 : ∀ i, i < M1.length →
      isEnd1At ((M1 ++ (end1Mark ++ (Q ++ (svcHead ++ (params ++ (svcTail ++ (M2 ++ '\x7d' :: S))))))).drop i) = none)
    (hrest : ∀ i, i < (Q ++ (svcHead ++ (params ++ (svcTail ++ (M2 ++ '\x7d' :: S))))).length →
      migHead.isPrefixOf ((Q ++ (svcHead ++ (params ++ (svcTail ++ (M2 ++ '\x7d' :: S))))).drop i) = false)
    (hpre2 : ∀ i, i < (P ++ ((newAutoMigrateContent models).data ++ Q)).length →
      svcHead.isPrefixOf (((P ++ ((newAutoMigrateContent models).data ++ Q)) ++ (svcHead ++ (params ++ (svcTail ++ (M2 ++ '\x7d' :: S))))).drop i) = false)
    (h3 : ∀ i, i + 1 < params.length →
      svcTail.isPrefixOf ((params ++ (svcTail ++ (M2 ++ '\x7d' :: S))).drop (i + 1)) = false)
    (hM2 : '\x7d' ∉ M2)
    (hS : ∀ i, i < S.length → svcHead.isPrefixOf (S.drop i) = false)
    (h2P : ∀ i, i < (P ++ "    ".data).length →
      migHead.isPrefixOf (((P ++ "    ".data) ++ (migHead ++ (migBodyData models ++ (end1Mark ++ (Q ++ (svcHead ++ (svcParams ++ (svcTail ++ (svcBodyData services ++ '\x7d' :: S))))))))).drop i) = false)
    (h2M1 : ∀ i, i < (migBodyData models).length →
      isEnd1At ((migBodyData models ++ (end1Mark ++ (Q ++ (svcHead ++ (svcParams ++ (svcTail ++ (svcBodyData services ++ '\x7d' :: S))))))).drop i) = none)
    (h2rest : ∀ i, i < (Q ++ (svcHead ++ (svcParams ++ (svcTail ++ (svcBodyData services ++ '\x7d' :: S))))).length →
      migHead.isPrefixOf ((Q ++ (svcHead ++ (svcParams ++ (svcTail ++ (svcBodyData services ++ '\x7d' :: S))))).drop i) = false)
    (h2pre2 : ∀ i, i < ((P ++ "    ".data) ++ ((newAutoMigrateContent models).data ++ Q)).length →
      svcHead.isPrefixOf ((((P ++ "    ".data) ++ ((newAutoMigrateContent models).data ++ Q)) ++ (svcHead ++ (svcParams ++ (svcTail ++ (svcBodyData services ++ '\x7d' :: S))))).drop i) = false)
    (h2M2 : '\x7d' ∉ svcBodyData services) :
    update_main_go_file models services
        ⟨P ++ (migHead ++ (M1 ++ (end1Mark ++ (Q ++ (svcHead ++ (params ++ (svcTail ++ (M2 ++ '\x7d' :: S))))))))⟩
      = ⟨P ++ ((newAutoMigrateContent models).data ++ (Q ++ ((newFunctionContent services).data ++ S)))⟩
    ∧ update_main_go_file models services (update_main_go_file models services
        ⟨P ++ (migHead ++ (M1 ++ (end1Mark ++ (Q ++ (svcHead ++ (params ++ (svcTail ++ (M2 ++ '\x7d' :: S))))))))⟩)
      = ⟨(P ++ "    ".data) ++ ((newAutoMigrateContent models).data ++ (Q ++ ((newFunctionContent services).data ++ S)))⟩
    ∧ update_main_go_file models services (update_main_go_file models services
        ⟨P ++ (migHead ++ (M1 ++ (end1Mark ++ (Q ++ (svcHead ++ (params ++ (svcTail ++ (M2 ++ '\x7d' :: S))))))))⟩)
      ≠ update_main_go_file models services
        ⟨P ++ (migHead ++ (M1 ++ (end1Mark ++ (Q ++ (svcHead ++ (params ++ (svcTail ++ (M2 ++ '\x7d' :: S))))))))⟩ := by
  have h1 := reconcile_eq models services P M1 Q params M2 S hparams1 hparams2 hP hM1 hrest
    hpre2 h3 hM2 hS
  have hmk : (⟨P ++ ((newAutoMigrateContent models).data ++ (Q ++ ((newFunctionContent services).data ++ S)))⟩ : String)
      = ⟨(P ++ "    ".data) ++ (migHead ++ (migBodyData models ++ (end1Mark ++ (Q ++ (svcHead ++ (svcParams ++ (svcTail ++ (svcBodyData services ++ '\x7d' :: S))))))))⟩ := by
    refine congrArg String.mk ?_
    rw [autoMigrate_decomp models, functionContent_decomp services]
    simp [List.append_assoc]
  have h2 := reconcile_eq models services (P ++ "    ".data) (migBodyData models) Q svcParams
    (svcBodyData services) S (by decide) (by decide) h2P h2M1 h2rest h2pre2
    (svcParams_no_early_tail _) h2M2 hS
  have hsecond : update_main_go_file models services (update_main_go_file models services
        ⟨P ++ (migHead ++ (M1 ++ (end1Mark ++ (Q ++ (svcHead ++ (params ++ (svcTail ++ (M2 ++ '\x7d' :: S))))))))⟩)
      = ⟨(P ++ "    ".data) ++ ((newAutoMigrateContent models).data ++ (Q ++ ((newFunctionContent services).data ++ S)))⟩ := by
    rw [h1, hmk, h2]
  refine ⟨h1, hsecond, ?_⟩
  · rw [hsecond, h1]
    intro heq
    have hdata : (P ++ "    ".data) ++
          ((newAutoMigrateContent models).data ++ (Q ++ ((newFunctionContent services).data ++ S)))
        = P ++ ((newAutoMigrateContent models).data ++ (Q ++ ((newFunctionContent services).data ++ S))) :=
      congrArg String.data heq
    have hlen := congrArg List.length hdata
    simp only [List.length_append, List.length_cons, List.length_nil] at hlen
    omega

set_option maxHeartbeats 12000000 in
/-- Witness for C4 at a concrete registry: the second run differs from the
first. -/
theorem registry_reconcile_C4_witness :
    update_main_go_file ["Article"] ["ArticleServiceServerImpl"]
        (update_main_go_file ["Article"] ["ArticleServiceServerImpl"]
          ⟨"package main\n\nfunc main() \x7b\n    ".data ++ (migHead ++ (" legacy ".data ++ (end1Mark ++ ("\n\x7d\n".data ++ (svcHead ++ (svcParams ++ (svcTail ++ ("\n    old\n".data ++ '\x7d' :: "\n".data))))))))⟩)
      ≠ update_main_go_file ["Article"] ["ArticleServiceServerImpl"]
          ⟨"package main\n\nfunc main() \x7b\n    ".data ++ (migHead ++ (" legacy ".data ++ (end1Mark ++ ("\n\x7d\n".data ++ (svcHead ++ (svcParams ++ (svcTail ++ ("\n    old\n".data ++ '\x7d' :: "\n".data))))))))⟩ :=
  (registry_reconcile_C4 ["Article"] ["ArticleServiceServerImpl"]
    "package main\n\nfunc main() \x7b\n    ".data " legacy ".data "\n\x7d\n".data
    svcParams "\n    old\n".data "\n".data
    (by decide) (by decide) (by decide) (by decide) (by decide) (by decide)
    (svcParams_no_early_tail ("\n    old\n".data ++ '\x7d' :: "\n".data))
    (by decide) (by decide) (by decide) (by decide) (by decide) (by decide) (by decide)).2.2

theorem resolveFields_keys_cases (ps : Props) :
    resolveFields ps = ps
      ++ (if "created_at" ∈ ps.map Prod.fst then [] else [("created_at", createdAtSpec)])
      ++ (if "updated_at" ∈ ps.map Prod.fst then [] else [("updated_at", updatedAtSpec)])
      ++ (if "id" ∈ ps.map Prod.fst then [] else [("id", idSpecModel)]) := by
  by_cases h1 : "created_at" ∈ ps.map Prod.fst <;>
    by_cases h2 : "updated_at" ∈ ps.map Prod.fst <;>
    by_cases h3 : "id" ∈ ps.map Prod.fst <;>
    simp [resolveFields, h1, h2, h3]

theorem resolveFieldsProto_keys_cases (ps : Props) :
    resolveFieldsProto ps = ps
      ++ (if "created_at" ∈ ps.map Prod.fst then [] else [("created_at", createdAtSpec)])
      ++ (if "updated_at" ∈ ps.map Prod.fst then [] else [("updated_at", updatedAtSpec)])
      ++ (if "id" ∈ ps.map Prod.fst then [] else [("id", idSpecProto)]) := by
  by_cases h1 : "created_at" ∈ ps.map Prod.fst <;>
    by_cases h2 : "updated_at" ∈ ps.map Prod.fst <;>
    by_cases h3 : "id" ∈ ps.map Prod.fst <;>
    simp [resolveFieldsProto, h1, h2, h3]

theorem resolve_keys_eq (ps : Props) :
    (resolveFieldsProto ps).map Prod.fst = (resolveFields ps).map Prod.fst := by
  rw [resolveFields_keys_cases, resolveFieldsProto_keys_cases]
  by_cases h1 : "created_at" ∈ ps.map Prod.fst <;>
    by_cases h2 : "updated_at" ∈ ps.map Prod.fst <;>
    by_cases h3 : "id" ∈ ps.map Prod.fst <;>
    simp [h1, h2, h3, idSpecProto, idSpecModel]

theorem mem_keys_resolveFields (ps : Props) :
    "created_at" ∈ (resolveFields ps).map Prod.fst
    ∧ "updated_at" ∈ (resolveFields ps).map Prod.fst
    ∧ "id" ∈ (resolveFields ps).map Prod.fst := by
  rw [resolveFields_keys_cases]
  by_cases h1 : "created_at" ∈ ps.map Prod.fst <;>
    by_cases h2 : "updated_at" ∈ ps.map Prod.fst <;>
    by_cases h3 : "id" ∈ ps.map Prod.fst <;>
    simp [h1, h2, h3]

theorem resolveFields_of_mem (qs : Props) (h1 : "created_at" ∈ qs.map Prod.fst)
    (h2 : "updated_at" ∈ qs.map Prod.fst) (h3 : "id" ∈ qs.map Prod.fst) :
    resolveFields qs = qs := by
  rw [resolveFields_keys_cases, if_pos h1, if_pos h2, if_pos h3]
  simp

theorem resolveFieldsProto_of_mem (qs : Props) (h1 : "created_at" ∈ qs.map Prod.fst)
    (h2 : "updated_at" ∈ qs.map Prod.fst) (h3 : "id" ∈ qs.map Prod.fst) :
    resolveFieldsProto qs = qs := by
  rw [resolveFieldsProto_keys_cases, if_pos h1, if_pos h2, if_pos h3]
  simp

theorem resolveFields_idem (ps : Props) :
    resolveFields (resolveFields ps) = resolveFields ps :=
  resolveFields_of_mem (resolveFields ps) (mem_keys_resolveFields ps).1
    (mem_keys_resolveFields ps).2.1 (mem_keys_resolveFields ps).2.2

theorem resolveFields_eq_self_iff (ps : Props) :
    resolveFields ps = ps ↔
      ("created_at" ∈ ps.map Prod.fst ∧ "updated_at" ∈ ps.map Prod.fst
        ∧ "id" ∈ ps.map Prod.fst) := by
  constructor
  · intro h
    by_cases h1 : "created_at" ∈ ps.map Prod.fst <;>
      by_cases h2 : "updated_at" ∈ ps.map Prod.fst <;>
      by_cases h3 : "id" ∈ ps.map Prod.fst <;>
      first
        | exact ⟨h1, h2, h3⟩
        | (rw [resolveFields_keys_cases] at h; simp [h1, h2, h3] at h)
  · intro ⟨h1, h2, h3⟩
    exact resolveFields_of_mem ps h1 h2 h3

theorem count_id_resolveFields (ps : Props) (hnd : (ps.map Prod.fst).Nodup) :
    ((resolveFields ps).map Prod.fst).count "id" = 1 := by
  rw [resolveFields_keys_cases]
  simp only [List.map_append, List.count_append]
  by_cases h3 : "id" ∈ ps.map Prod.fst
  · rw [if_pos h3, List.count_eq_one_of_mem hnd h3]
    by_cases h1 : "created_at" ∈ ps.map Prod.fst <;>
      by_cases h2 : "updated_at" ∈ ps.map Prod.fst <;>
      simp [h1, h2]
  · rw [if_neg h3, List.count_eq_zero.mpr h3]
    by_cases h1 : "created_at" ∈ ps.map Prod.fst <;>
      by_cases h2 : "updated_at" ∈ ps.map Prod.fst <;>
      simp [h1, h2]

theorem count_created_resolveFields (ps : Props) (hnd : (ps.map Prod.fst).Nodup) :
    ((resolveFields ps).map Prod.fst).count "created_at" = 1 := by
  rw [resolveFields_keys_cases]
  simp only [List.map_append, List.count_append]
  by_cases h1 : "created_at" ∈ ps.map Prod.fst
  · rw [if_pos h1, List.count_eq_one_of_mem hnd h1]
    by_cases h2 : "updated_at" ∈ ps.map Prod.fst <;>
      by_cases h3 : "id" ∈ ps.map Prod.fst <;>
      simp [h2, h3]
  · rw [if_neg h1, List.count_eq_zero.mpr h1]
    by_cases h2 : "updated_at" ∈ ps.map Prod.fst <;>
      by_cases h3 : "id" ∈ ps.map Prod.fst <;>
      simp [h2, h3]

theorem count_updated_resolveFields (ps : Props) (hnd : (ps.map Prod.fst).Nodup) :
    ((resolveFields ps).map Prod.fst).count "updated_at" = 1 := by
  rw [resolveFields_keys_cases]
  simp only [List.map_append, List.count_append]
  by_cases h2 : "updated_at" ∈ ps.map Prod.fst
  · rw [if_pos h2, List.count_eq_one_of_mem hnd h2]
    by_cases h1 : "created_at" ∈ ps.map Prod.fst <;>
      by_cases h3 : "id" ∈ ps.map Prod.fst <;>
      simp [h1, h3]
  · rw [if_neg h2, List.count_eq_zero.mpr h2]
    by_cases h1 : "created_at" ∈ ps.map Prod.fst <;>
      by_cases h3 : "id" ∈ ps.map Prod.fst <;>
      simp [h1, h3]

/-- C1: for a schema whose properties mapping has no duplicate keys (as a
Python dict guarantees), the resolved field list contains exactly one
`id`, one `created_at` and one `updated_at` entry — each injected only
when absent, so never duplicated; the explicit fields stay a prefix in
their original order with the injected fields appended; and resolving an
already-resolved list adds nothing. -/
theorem field_resolution_C1 (ps : Props) (hnd : (ps.map Prod.fst).Nodup) :
    (((resolveFields ps).map Prod.fst).count "id" = 1
      ∧ ((resolveFields ps).map Prod.fst).count "created_at" = 1
      ∧ ((resolveFields ps).map Prod.fst).count "updated_at" = 1)
    ∧ ps <+: resolveFields ps
    ∧ resolveFields (resolveFields ps) = resolveFields ps := by
  refine ⟨⟨count_id_resolveFields ps hnd, count_created_resolveFields ps hnd,
    count_updated_resolveFields ps hnd⟩, ?_, resolveFields_idem ps⟩
  refine ⟨(if "created_at" ∈ ps.map Prod.fst then [] else [("created_at", createdAtSpec)])
      ++ (if "updated_at" ∈ ps.map Prod.fst then [] else [("updated_at", updatedAtSpec)])
      ++ (if "id" ∈ ps.map Prod.fst then [] else [("id", idSpecModel)]), ?_⟩
  rw [resolveFields_keys_cases]
  simp [List.append_assoc]

/-- Witness for C1: a schema declaring only `title`. -/
theorem field_resolution_C1_witness :
    (([("title", ({ type := "string" } : FieldSpec))].map Prod.fst).Nodup)
    ∧ ((((resolveFields [("title", { type := "string" })]).map Prod.fst).count "id" = 1
        ∧ (((resolveFields [("title", { type := "string" })]).map Prod.fst).count "created_at" = 1)
        ∧ (((resolveFields [("title", { type := "string" })]).map Prod.fst).count "updated_at" = 1))
      ∧ [("title", { type := "string" })] <+: resolveFields [("title", { type := "string" })]
      ∧ resolveFields (resolveFields [("title", { type := "string" })])
          = resolveFields [("title", { type := "string" })]) :=
  ⟨by decide, field_resolution_C1 [("title", { type := "string" })] (by decide)⟩

theorem goFieldsLoop_names (required_fields : List String) (l : Props) :
    ∀ customs, ((goFieldsLoop required_fields customs l).map GoField.name)
      = l.map (fun p => convert_field_name p.1) := by
  induction l with
  | nil => intro customs; rfl
  | cons p rest ih =>
    intro customs
    simp only [goFieldsLoop, List.map_cons]
    rw [ih]

theorem protoSorted_perm (required_fields : List String) (l : Props) :
    List.Perm (protoSorted required_fields l) l := by
  unfold protoSorted
  have hfn : (fun p : String × FieldSpec => decide (p.1 ∉ required_fields))
      = fun p => !decide (p.1 ∈ required_fields) := by
    funext p
    simp [decide_not]
  rw [hfn]
  exact List.filter_append_perm (fun p => decide (p.1 ∈ required_fields)) l

/-- C2: for every schema, the multiset of field identifiers of the
Contract message equals that of the DataModel struct; and on array fields
the two artifacts relate exactly as documented — the DataModel substitutes
the generated container type precisely for arrays of unique strings while
the Contract always emits a flat `repeated` field of the table-mapped item
type. -/
theorem cross_artifact_C2 (ps : Props) (required_fields : List String) :
    List.Perm
      ((protoSorted required_fields (resolveFieldsProto ps)).map (fun p => convert_field_name p.1))
      (((generate_go_model ps required_fields).fields).map GoField.name)
    ∧ (∀ p ∈ resolveFields ps, ∀ it : ItemSpec, p.2.items = some it → p.2.type = "array" →
        p.2.format ≠ some "date-time" →
        ((it.type = "string" ∧ p.2.uniqueItems = true) →
            goType p.1 p.2 = convert_field_name p.1
            ∧ protoType p.2 = "repeated string")
        ∧ (¬(it.type = "string" ∧ p.2.uniqueItems = true) →
            goType p.1 p.2 = "[]" ++ (typeMapping it.type).getD "string"
            ∧ protoType p.2 = "repeated " ++ (typeMapping it.type).getD "string")) := by
  constructor
  · have h1 : (((generate_go_model ps required_fields).fields).map GoField.name)
        = (resolveFields ps).map (fun p => convert_field_name p.1) := by
      unfold generate_go_model
      exact goFieldsLoop_names required_fields (resolveFields ps) []
    have h2 : (resolveFieldsProto ps).map (fun p => convert_field_name p.1)
        = (resolveFields ps).map (fun p => convert_field_name p.1) := by
      have e1 : (resolveFieldsProto ps).map (fun p => convert_field_name p.1)
          = ((resolveFieldsProto ps).map Prod.fst).map convert_field_name := by
        rw [List.map_map]
        rfl
      have e2 : (resolveFields ps).map (fun p => convert_field_name p.1)
          = ((resolveFields ps).map Prod.fst).map convert_field_name := by
        rw [List.map_map]
        rfl
      rw [e1, e2, resolve_keys_eq]
    rw [h1, ← h2]
    exact (protoSorted_perm required_fields (resolveFieldsProto ps)).map _
  · intro p _ it hit hty hfmt
    constructor
    · intro hcase
      refine ⟨?_, ?_⟩
      · simp [goType, goTypeAndCustoms, hfmt, hty, hit, hcase]
      · simp only [protoType, hty, hit]
        simp [hfmt, hcase.1, typeMapping]
    · intro hcase
      refine ⟨?_, ?_⟩
      · simp [goType, goTypeAndCustoms, hfmt, hty, hit, hcase]
      · simp only [protoType, hty, hit]
        simp [hfmt]

/-- Witness for C2: the `tags` schema — identifier multisets agree, the
DataModel gives `tags` the container type `Tags`, the Contract a flat
`repeated string`. -/
theorem cross_artifact_C2_witness :
    List.Perm
      ((protoSorted [] (resolveFieldsProto [("tags", tagsSpec)])).map (fun p => convert_field_name p.1))
      (((generate_go_model [("tags", tagsSpec)] []).fields).map GoField.name)
    ∧ goType "tags" tagsSpec = "Tags"
    ∧ protoType tagsSpec = "repeated string" := by
  have h := cross_artifact_C2 [("tags", tagsSpec)] []
  have h2 := (h.2 ("tags", tagsSpec) (by decide) { type := "string" } (by decide) (by decide)
    (by decide)).1 (by decide)
  exact ⟨h.1, by rw [h2.1]; decide, h2.2⟩

/-- C5: the Contract gives every array field (with an item spec and no
date-time format) the flat `repeated` type of the table-mapped item kind —
string, uint64, bool, and float64 for numbers, per the table at
`generate_model.py` lines 14-20 — independently of `uniqueItems`, so the
custom-container substitution never occurs in the Contract. -/
theorem contract_array_C5 (specs : FieldSpec) (it : ItemSpec)
    (hty : specs.type = "array") (hit : specs.items = some it)
    (hfmt : specs.format ≠ some "date-time") :
    protoType specs = "repeated " ++ (typeMapping it.type).getD "string"
    ∧ (it.type = "string" → protoType specs = "repeated string")
    ∧ (it.type = "integer" → protoType specs = "repeated uint64")
    ∧ (it.type = "boolean" → protoType specs = "repeated bool")
    ∧ (it.type = "number" → protoType specs = "repeated float64")
    ∧ (∀ b : Bool, protoType { specs with uniqueItems := b } = protoType specs) := by
  have hmain : protoType specs = "repeated " ++ (typeMapping it.type).getD "string" := by
    simp only [protoType, hty, hit]
    simp [hfmt]
  refine ⟨hmain, ?_, ?_, ?_, ?_, fun b => rfl⟩
  · intro h
    rw [hmain, h]
    decide
  · intro h
    rw [hmain, h]
    decide
  · intro h
    rw [hmain, h]
    decide
  · intro h
    rw [hmain, h]
    decide

/-- Witness for C5 at the `tags` spec (string items, `uniqueItems` set). -/
theorem contract_array_C5_witness :
    (tagsSpec.type = "array" ∧ tagsSpec.items = some { type := "string" }
      ∧ tagsSpec.format ≠ some "date-time")
    ∧ protoType tagsSpec = "repeated string" :=
  ⟨by decide,
    (contract_array_C5 tagsSpec { type := "string" } (by decide) (by decide) (by decide)).2.1 rfl⟩

/-- C6 at the failing input: the claim says every custom-container field
carries the `type:json` storage attribute, but for the field `tags`
(array of unique strings, resolved type the container `Tags`) the
generated tag bundle has no gorm tag at all — line 110 of
`generate_model.py` tests the raw name `tags` against `custom_types`,
whose key is the converted name `Tags` — while a plain array field such as
`nums` does get `gorm:"type:json"`. -/
theorem array_storage_attr_C6_eval :
    ((generate_go_model [("tags", tagsSpec)] []).fields.map (fun g => (g.name, g.ty, g.tags))).head?
      = some ("Tags", "Tags", ["json:\"tags\"", "bson:\"tags\"", "validate:\"unique\""])
    ∧ (∀ g ∈ (generate_go_model [("tags", tagsSpec)] []).fields, g.name = "Tags" →
        "type:json".data <:+: (pyJoin " " g.tags).data → False)
    ∧ ((generate_go_model [("nums", { type := "array", items := some { type := "integer" } })] []).fields.map
        (fun g => (g.name, g.ty, g.tags))).head?
      = some ("Nums", "[]uint64", ["json:\"nums\"", "gorm:\"type:json\"", "bson:\"nums\""]) := by
  decide

/-- C7: identifier derivation is the pure total function the spec
describes — segment-capitalize on underscores, concatenate, with the
`"Id"`-to-`"ID"` exception applied exactly on a whole-name match, so
`user_id` becomes `UserId` (never `UserID`), `id` becomes `ID`, and no
derived name is ever the unreplaced `"Id"`. -/
theorem name_derivation_C7 :
    (∀ field : String, convert_field_name field = deriveIdentifierSpecced field)
    ∧ convert_field_name "user_id" = "UserId"
    ∧ convert_field_name "user_id" ≠ "UserID"
    ∧ convert_field_name "id" = "ID"
    ∧ ∀ field : String, convert_field_name field ≠ "Id" := by
  refine ⟨fun field => rfl, by decide, by decide, by decide, ?_⟩
  intro field
  simp only [convert_field_name]
  split
  · decide
  · next h => exact h

/-- Witness for C7 at the compound name `user_id` and at `id`. -/
theorem name_derivation_C7_witness :
    convert_field_name "user_id" = deriveIdentifierSpecced "user_id"
    ∧ convert_field_name "user_id" = "UserId"
    ∧ convert_field_name "id" = "ID"
    ∧ convert_field_name "user_id" ≠ "Id" :=
  ⟨name_derivation_C7.1 "user_id", name_derivation_C7.2.1, name_derivation_C7.2.2.2.1,
    name_derivation_C7.2.2.2.2 "user_id"⟩

theorem sprintfDAux_no_pct (n : Nat) (l r : List Char) (hl : '%' ∉ l) :
    sprintfDAux n (l ++ r) = l ++ sprintfDAux n r := by
  induction l with
  | nil => simp
  | cons c cs ih =>
    have hc : c ≠ '%' := fun h => hl (h ▸ List.mem_cons_self c cs)
    have hcs : '%' ∉ cs := fun h => hl (List.mem_cons_of_mem c h)
    cases hcr : cs ++ r with
    | nil =>
      obtain ⟨h1, h2⟩ := List.append_eq_nil.mp hcr
      subst h1
      subst h2
      simp [sprintfDAux]
    | cons d rest =>
      rw [List.cons_append, hcr, sprintfDAux, if_neg (by simp [hc]), ← hcr, ih hcs]
      rfl

theorem sprintf_key (s : String) (n : Nat) (h : '%' ∉ s.data) :
    sprintf1d (s ++ ":%d") n = s ++ ":" ++ toString n := by
  apply String.ext
  show sprintfDAux n (s ++ ":%d").data = (s ++ ":" ++ toString n).data
  rw [String.data_append, String.data_append, String.data_append]
  rw [show (":%d" : String).data = ':' :: '%' :: 'd' :: [] from by decide]
  rw [show s.data ++ (':' :: '%' :: 'd' :: []) = (s.data ++ [':']) ++ '%' :: 'd' :: [] from by simp]
  rw [sprintfDAux_no_pct n (s.data ++ [':']) ('%' :: 'd' :: []) (by simp [h])]
  rw [show sprintfDAux n ('%' :: 'd' :: []) = (toString n).data ++ [] from by simp [sprintfDAux]]
  simp [show (":" : String).data = [':'] from by decide]

/-- C8: the Get and Update cache-key lines embed the schema-derived format
`<schemaName>:%d` while the Delete line embeds the literal `product:%d`;
the runtime keys these Sprintf formats produce are `<schemaName>:<id>`
versus `product:<id>`, so for every schema not named `product` the Delete
invalidation key differs from the key Get and Update use for the same id. -/
theorem cache_key_C8 (schema_name : String) (id : Nat)
    (hp : '%' ∉ schema_name.data) (hne : schema_name ≠ "product") :
    getCacheKeyLine schema_name
      = "    cacheKey := fmt.Sprintf(\"" ++ getCacheKeyFormat schema_name ++ "\", uint(req.Id))\n"
    ∧ updateCacheKeyLine schema_name
      = "    cacheKey := fmt.Sprintf(\"" ++ getCacheKeyFormat schema_name ++ "\", uint(req."
          ++ convert_field_name schema_name ++ ".ID))\n"
    ∧ deleteCacheKeyLine
      = "    cacheKey := fmt.Sprintf(\"" ++ deleteCacheKeyFormat ++ "\", uint(req.Id))\n"
    ∧ sprintf1d (getCacheKeyFormat schema_name) id = schema_name ++ ":" ++ toString id
    ∧ sprintf1d deleteCacheKeyFormat id = "product:" ++ toString id
    ∧ sprintf1d deleteCacheKeyFormat id ≠ sprintf1d (getCacheKeyFormat schema_name) id := by
  have hget : sprintf1d (getCacheKeyFormat schema_name) id = schema_name ++ ":" ++ toString id := by
    rw [getCacheKeyFormat]
    exact sprintf_key schema_name id hp
  have hdel : sprintf1d deleteCacheKeyFormat id = "product:" ++ toString id := by
    rw [show deleteCacheKeyFormat = "product" ++ ":%d" from by decide,
      sprintf_key "product" id (by decide)]
    apply String.ext
    simp [String.data_append, List.cons_append]
  refine ⟨?_, ?_, ?_, hget, hdel, ?_⟩
  · apply String.ext
    simp [getCacheKeyLine, getCacheKeyFormat, String.data_append, List.append_assoc,
      List.cons_append]
  · apply String.ext
    simp [updateCacheKeyLine, getCacheKeyFormat, String.data_append, List.append_assoc,
      List.cons_append]
  · apply String.ext
    simp [deleteCacheKeyLine, deleteCacheKeyFormat, String.data_append, List.append_assoc,
      List.cons_append]
  · rw [hget, hdel]
    intro heq
    have hdata : "product:".data ++ (toString id).data
        = (schema_name.data ++ [':']) ++ (toString id).data := by
      have h1 := congrArg String.data heq
      rw [String.data_append, String.data_append, String.data_append] at h1
      simpa [show (":" : String).data = [':'] from by decide, List.append_assoc] using h1
    have h2 : "product:".data = schema_name.data ++ [':'] := List.append_cancel_right hdata
    have h3 : "product".data ++ [':'] = schema_name.data ++ [':'] := by
      rw [show ("product:" : String).data = "product".data ++ [':'] from by decide] at h2
      exact h2
    have h4 : "product".data = schema_name.data := List.append_cancel_right h3
    exact hne (String.ext h4.symm)

/-- Witness for C8: schema `article`, id 7. -/
theorem cache_key_C8_witness :
    ('%' ∉ ("article" : String).data ∧ ("article" : String) ≠ "product")
    ∧ sprintf1d (getCacheKeyFormat "article") 7 = "article" ++ ":" ++ toString 7
    ∧ sprintf1d deleteCacheKeyFormat 7 = "product:" ++ toString 7
    ∧ sprintf1d deleteCacheKeyFormat 7 ≠ sprintf1d (getCacheKeyFormat "article") 7 :=
  ⟨⟨by decide, by decide⟩, (cache_key_C8 "article" 7 (by decide) (by decide)).2.2.2.1,
    (cache_key_C8 "article" 7 (by decide) (by decide)).2.2.2.2.1,
    (cache_key_C8 "article" 7 (by decide) (by decide)).2.2.2.2.2⟩

/-- C9 counterexample: generating the data-model artifact for a schema
declaring only `title` mutates the loaded schema's properties mapping in
place (the implicit fields appear in it afterwards), so the descriptor is
not read-only during a run. -/
theorem schema_readonly_C9_counterexample :
    (generate_go_model [("title", { type := "string" })] ["title"]).props
      ≠ [("title", ({ type := "string" } : FieldSpec))] := by
  decide

/-- C9 (amended): the schema descriptor is not read-only within a run —
the data-model and contract emitters mutate its properties mapping in
place, appending exactly the missing implicit entries; apart from this
injection the mapping is untouched (the original entries remain a prefix),
and it is left unchanged precisely when all three implicit names were
already present. -/
theorem schema_readonly_C9 (schema_name : String) (ps : Props) (required_fields : List String) :
    (generate_go_model ps required_fields).props = resolveFields ps
    ∧ (generate_proto_file schema_name ps required_fields).props = resolveFieldsProto ps
    ∧ ps <+: (generate_go_model ps required_fields).props
    ∧ ((generate_go_model ps required_fields).props = ps ↔
        ("created_at" ∈ ps.map Prod.fst ∧ "updated_at" ∈ ps.map Prod.fst
          ∧ "id" ∈ ps.map Prod.fst)) := by
  refine ⟨rfl, rfl, ?_, ?_⟩
  · show ps <+: resolveFields ps
    refine ⟨(if "created_at" ∈ ps.map Prod.fst then [] else [("created_at", createdAtSpec)])
        ++ (if "updated_at" ∈ ps.map Prod.fst then [] else [("updated_at", updatedAtSpec)])
        ++ (if "id" ∈ ps.map Prod.fst then [] else [("id", idSpecModel)]), ?_⟩
    rw [resolveFields_keys_cases]
    simp [List.append_assoc]
  · show resolveFields ps = ps ↔ _
    exact resolveFields_eq_self_iff ps

/-- Witness for C9's amended statement at the `title` schema. -/
theorem schema_readonly_C9_witness :
    (generate_go_model [("title", { type := "string" })] ["title"]).props
      = resolveFields [("title", { type := "string" })]
    ∧ [("title", ({ type := "string" } : FieldSpec))]
        <+: (generate_go_model [("title", { type := "string" })] ["title"]).props :=
  ⟨(schema_readonly_C9 "article" [("title", { type := "string" })] ["title"]).1,
   (schema_readonly_C9 "article" [("title", { type := "string" })] ["title"]).2.2.1⟩

theorem ne_of_data_head (s t : String) (h : s.data.head? ≠ t.data.head?) : s ≠ t :=
  fun he => h (by rw [he])

theorem protoFieldLines_head (c : Nat) (fields : Props) :
    ∀ l ∈ protoFieldLines c fields, l.data.head? = some ' ' := by
  induction fields generalizing c with
  | nil => intro l hl; simp [protoFieldLines] at hl
  | cons p rest ih =>
    intro l hl
    simp only [protoFieldLines, List.mem_cons] at hl
    rcases hl with rfl | hl
    · simp [String.data_append, List.cons_append]
    · exact ih (c + 1) l hl

theorem mem_protoFieldLines (fields : Props) (p : String × FieldSpec) (hp : p ∈ fields) :
    ∀ c : Nat, ∃ k : Nat,
      ("    " ++ protoType p.2 ++ " " ++ convert_field_name p.1 ++ " = " ++ toString k ++ ";\n")
        ∈ protoFieldLines c fields := by
  induction fields with
  | nil => simp at hp
  | cons q rest ih =>
    intro c
    rcases List.mem_cons.mp hp with rfl | hmem
    · exact ⟨c, by simp [protoFieldLines]⟩
    · obtain ⟨k, hk⟩ := ih hmem (c + 1)
      exact ⟨k, by simp [protoFieldLines, hk]⟩

theorem crudLines_ne_import (schema_name : String) :
    ∀ l ∈ crudLines schema_name, l ≠ timestampImportLine := by
  intro l hl
  simp only [crudLines, List.mem_cons, List.not_mem_nil, or_false] at hl
  rcases hl with rfl|rfl|rfl|rfl|rfl|rfl|rfl|rfl|rfl|rfl|rfl|rfl|rfl|rfl <;>
    (apply ne_of_data_head
     simp [String.data_append, List.cons_append, timestampImportLine])

/-- C10: the contract emitter decides the timestamp import from the
properties before injecting the implicit fields; for a freshly loaded
schema with no date-time field (and no explicit `created_at`/`updated_at`)
the emitted message types the injected `CreatedAt`/`UpdatedAt` fields as
the wire timestamp type yet omits the import line, while running the
emitter on the properties already mutated by the data-model emitter
(`resolveFields`) does produce the import. -/
theorem proto_timestamp_import_C10 (schema_name : String) (ps : Props)
    (required_fields : List String)
    (hnf : ∀ p ∈ ps, p.2.format ≠ some "date-time")
    (hcr : "created_at" ∉ ps.map Prod.fst) (hup : "updated_at" ∉ ps.map Prod.fst) :
    timestampImportLine ∉ (generate_proto_file schema_name ps required_fields).lines
    ∧ (∃ k : Nat, ("    google.protobuf.Timestamp CreatedAt = " ++ toString k ++ ";\n")
        ∈ (generate_proto_file schema_name ps required_fields).lines)
    ∧ (∃ k : Nat, ("    google.protobuf.Timestamp UpdatedAt = " ++ toString k ++ ";\n")
        ∈ (generate_proto_file schema_name ps required_fields).lines)
    ∧ timestampImportLine ∈ (generate_proto_file schema_name (resolveFields ps) required_fields).lines := by
  have hflag : ps.any (fun p => decide (p.2.format = some "date-time")) = false := by
    simp only [List.any_eq_false]
    intro p hp
    simpa using hnf p hp
  have hlines : (generate_proto_file schema_name ps required_fields).lines
      = ["syntax = \"proto3\";\n\n", "package proto;\n", "option go_package = \"./proto\";\n\n",
          "message " ++ convert_field_name schema_name ++ " \x7b\n"]
        ++ protoFieldLines 1 (protoSorted required_fields (resolveFieldsProto ps))
        ++ ["\x7d\n\n"] ++ crudLines schema_name := by
    simp [generate_proto_file, hflag]
  have hcr_mem : ("created_at", createdAtSpec) ∈ resolveFieldsProto ps := by
    rw [resolveFieldsProto_keys_cases, if_neg hcr]
    simp
  have hup_mem : ("updated_at", updatedAtSpec) ∈ resolveFieldsProto ps := by
    rw [resolveFieldsProto_keys_cases, if_neg hup]
    simp
  refine ⟨?_, ?_, ?_, ?_⟩
  · intro hmem
    rw [hlines] at hmem
    rcases List.mem_append.mp hmem with h1 | hcrud
    · rcases List.mem_append.mp h1 with h2 | hbrace
      · rcases List.mem_append.mp h2 with hpre | hfield
        · simp only [List.mem_cons, List.not_mem_nil, or_false] at hpre
          rcases hpre with h|h|h|h
          · exact absurd h (by decide)
          · exact absurd h (by decide)
          · exact absurd h (by decide)
          · exact ne_of_data_head timestampImportLine
              ("message " ++ convert_field_name schema_name ++ " \x7b\n")
              (by simp [String.data_append, List.cons_append, timestampImportLine]) h
        · have hh := protoFieldLines_head 1 _ timestampImportLine hfield
          simp [timestampImportLine] at hh
      · simp only [List.mem_cons, List.not_mem_nil, or_false] at hbrace
        exact absurd hbrace (by decide)
    · exact crudLines_ne_import schema_name _ hcrud rfl
  · have hsort : ("created_at", createdAtSpec)
        ∈ protoSorted required_fields (resolveFieldsProto ps) :=
      ((protoSorted_perm required_fields (resolveFieldsProto ps)).mem_iff).mpr hcr_mem
    obtain ⟨k, hk⟩ := mem_protoFieldLines _ _ hsort 1
    refine ⟨k, ?_⟩
    have hline : ("    " ++ protoType (("created_at", createdAtSpec) : String × FieldSpec).2
          ++ " " ++ convert_field_name (("created_at", createdAtSpec) : String × FieldSpec).1
          ++ " = " ++ toString k ++ ";\n")
        = "    google.protobuf.Timestamp CreatedAt = " ++ toString k ++ ";\n" := by
      apply String.ext
      rw [show protoType (("created_at", createdAtSpec) : String × FieldSpec).2
          = "google.protobuf.Timestamp" from by decide]
      rw [show convert_field_name (("created_at", createdAtSpec) : String × FieldSpec).1
          = "CreatedAt" from by decide]
      simp [String.data_append, List.cons_append]
    rw [hlines, ← hline]
    simp only [List.mem_append]
    exact Or.inl (Or.inl (Or.inr hk))
  · have hsort : ("updated_at", updatedAtSpec)
        ∈ protoSorted required_fields (resolveFieldsProto ps) :=
      ((protoSorted_perm required_fields (resolveFieldsProto ps)).mem_iff).mpr hup_mem
    obtain ⟨k, hk⟩ := mem_protoFieldLines _ _ hsort 1
    refine ⟨k, ?_⟩
    have hline : ("    " ++ protoType (("updated_at", updatedAtSpec) : String × FieldSpec).2
          ++ " " ++ convert_field_name (("updated_at", updatedAtSpec) : String × FieldSpec).1
          ++ " = " ++ toString k ++ ";\n")
        = "    google.protobuf.Timestamp UpdatedAt = " ++ toString k ++ ";\n" := by
      apply String.ext
      rw [show protoType (("updated_at", updatedAtSpec) : String × FieldSpec).2
          = "google.protobuf.Timestamp" from by decide]
      rw [show convert_field_name (("updated_at", updatedAtSpec) : String × FieldSpec).1
          = "UpdatedAt" from by decide]
      simp [String.data_append, List.cons_append]
    rw [hlines, ← hline]
    simp only [List.mem_append]
    exact Or.inl (Or.inl (Or.inr hk))
  · have hflag2 : (resolveFields ps).any (fun p => decide (p.2.format = some "date-time")) = true := by
      apply List.any_eq_true.mpr
      refine ⟨("created_at", createdAtSpec), ?_, by decide⟩
      rw [resolveFields_keys_cases, if_neg hcr]
      simp
    simp [generate_proto_file, hflag2, timestampImportLine]

/-- Witness for C10: the `article`/`title` schema — no timestamp import
alone, import present after the data-model emitter's injection. -/
theorem proto_timestamp_import_C10_witness :
    ((∀ p ∈ [("title", ({ type := "string" } : FieldSpec))], p.2.format ≠ some "date-time")
      ∧ "created_at" ∉ [("title", ({ type := "string" } : FieldSpec))].map Prod.fst
      ∧ "updated_at" ∉ [("title", ({ type := "string" } : FieldSpec))].map Prod.fst)
    ∧ timestampImportLine
        ∉ (generate_proto_file "article" [("title", { type := "string" })] ["title"]).lines
    ∧ timestampImportLine
        ∈ (generate_proto_file "article" (resolveFields [("title", { type := "string" })])
            ["title"]).lines :=
  ⟨⟨by decide, by decide, by decide⟩,
   (proto_timestamp_import_C10 "article" [("title", { type := "string" })] ["title"]
     (by decide) (by decide) (by decide)).1,
   (proto_timestamp_import_C10 "article" [("title", { type := "string" })] ["title"]
     (by decide) (by decide) (by decide)).2.2.2⟩
